import Mathlib

set_option maxRecDepth 100000

/-!
Shallow embedding of `storages/backends/azure_storage.py` (the
django-storages Azure backend): name validation and normalization, the
buffered storage file handle, the storage facade operations (open, save,
delete, size, url, list_all, listdir), and the dual blob-service clients.

Modelling conventions: Python strings are Lean `String`; byte content is
`List UInt8`; UTC instants are `Nat` seconds.  Python exceptions are
modelled with `Except`: the validator's `ValueError`s, `_normalize_name`'s
`SuspiciousOperation`, the mode checks' `AttributeError` and the azure
backend errors are the constructors of `StorageErr`.  The two helpers
imported from `storages.utils` (`clean_name`, `safe_join`) are not among
the sources and are modelled from the specification, as their doc comments
state.
-/

deriving instance DecidableEq for Except

/-- Characters stripped from both ends by the validator: Python
`s.strip('./')` strips any mix of dots and slashes. -/
def isDotSlash (c : Char) : Bool := c = '.' || c = '/'

/-- Python `s.strip('./')`: remove leading and trailing `.` and `/`. -/
def stripDotSlash (s : String) : String :=
  String.mk (((s.data.dropWhile isDotSlash).reverse.dropWhile isDotSlash).reverse)

/-- Split a character list on `/`, yielding the (possibly empty) segments. -/
def splitSlashAux : List Char → List Char → List String
  | [], acc => [String.mk acc.reverse]
  | c :: cs, acc =>
    if c = '/' then String.mk acc.reverse :: splitSlashAux cs []
    else splitSlashAux cs (c :: acc)

/-- Split a path string on `/` into its segments. -/
def splitSlash (s : String) : List String := splitSlashAux s.data []

/-- One step of posix-style path resolution over a reversed segment stack:
empty and dot segments vanish, a dot-dot pops the previous segment when one
is available and otherwise stays as a leading dot-dot. -/
def pushSeg (stack : List String) (seg : String) : List String :=
  if seg = "" || seg = "." then stack
  else if seg = ".." then
    match stack with
    | [] => [seg]
    | top :: rest => if top = ".." then seg :: stack else rest
  else seg :: stack

/-- Resolve `.`/`..` segments and drop empty segments, keeping any leading
`..` that would climb above the starting directory. -/
def normRel (segs : List String) : List String :=
  (segs.foldl pushSeg []).reverse

/-- Modelled from the spec: `storages.utils.clean_name` is imported by the
backend but is not among the sources here.  Per the spec it collapses
redundant separators and relative (`.`/`..`) components, posix-normpath
style; an input that collapses to nothing yields the empty string. -/
def clean_name (name : String) : String :=
  String.intercalate ("/") (normRel (splitSlash name))

/-- Modelled from the spec: `storages.utils.safe_join` is imported by the
backend but is not among the sources here.  Per the spec it joins the root
prefix with the path, resolves `.`/`..` segments, and fails — it does not
silently clamp — when the resolved path would escape the root prefix
directory, raising the `ValueError` that `_normalize_name` catches. -/
def safe_join (base p : String) : Except Unit String :=
  let baseSegs := normRel (splitSlash base)
  let resolved := normRel (baseSegs ++ splitSlash p)
  if resolved.contains ("..") || !(baseSegs.isPrefixOf resolved) then
    .error ()
  else
    .ok (String.intercalate ("/") resolved)

/-- Errors raised by the azure SDK client (`AzureMissingResourceHttpError`
for a missing blob; `transport` stands for any other backend error). -/
inductive AzureErr
  | missingResource
  | transport
deriving DecidableEq, Repr

/-- The exceptions the backend module can raise, one constructor per
distinct source error: the three `ValueError`s of the validator, the
`SuspiciousOperation` of `_normalize_name`, the `AttributeError` of the
file-handle mode checks, and propagated azure backend errors. -/
inductive StorageErr
  | nameTooLong
  | nameEmpty
  | tooManySegments
  | suspiciousOperation
  | modeError
  | azure (e : AzureErr)
deriving DecidableEq, Repr

/-- Max len according to azure's docs (`_AZURE_NAME_MAX_LEN`). -/
def _AZURE_NAME_MAX_LEN : Nat := 1024

/-- Module-level `_get_valid_path`: strip leading/trailing dots and
slashes, then reject names longer than 1024 characters, names left empty,
and names with more than 256 slashes — each a distinct `ValueError` in the
source, checked in this order. -/
def _get_valid_path (s : String) : Except StorageErr String :=
  let t := stripDotSlash s
  if t.data.length > _AZURE_NAME_MAX_LEN then .error .nameTooLong
  else if t.data.length = 0 then .error .nameEmpty
  else if t.data.count ('/') > 256 then .error .tooManySegments
  else .ok t

/-- Alias for the module-level validator, used inside the `AzureStorage`
namespace where the method of the same name shadows it. -/
def validatePath (s : String) : Except StorageErr String := _get_valid_path s

/-- Constructor-argument record of `BlockBlobService` exactly as
`_blob_service` fills it; equality of two records models "same client
configuration". -/
structure BlockBlobService where
  account_name : Option String
  account_key : Option String
  sas_token : Option String
  is_emulated : Bool
  protocol : String
  custom_domain : Option String
  connection_string : Option String
  token_credential : Option String
  endpoint_suffix : Option String
deriving DecidableEq, Repr

/-- The `AzureStorage` facade's configuration: the class attributes the
source reads from settings. -/
structure AzureStorage where
  account_name : Option String
  account_key : Option String
  azure_container : String
  azure_ssl : Bool
  upload_max_conn : Nat
  timeout : Nat
  max_memory_size : Nat
  expiration_secs : Option Nat
  overwrite_files : Bool
  location : String
  default_content_type : String
  is_emulated : Bool
  endpoint_suffix : Option String
  sas_token : Option String
  custom_domain : Option String
  connection_string : Option String
  custom_connection_string : Option String
  token_credential : Option String
deriving DecidableEq, Repr

/-- `AzureStorage.azure_protocol`. -/
def AzureStorage.azure_protocol (a : AzureStorage) : String :=
  if a.azure_ssl then ("https") else ("http")

/-- `AzureStorage._blob_service`: builds a client value from the
configuration plus the per-client custom domain and connection string. -/
def AzureStorage._blob_service (a : AzureStorage)
    (custom_domain connection_string : Option String) : BlockBlobService :=
  { account_name := a.account_name
    account_key := a.account_key
    sas_token := a.sas_token
    is_emulated := a.is_emulated
    protocol := a.azure_protocol
    custom_domain := custom_domain
    connection_string := connection_string
    token_credential := a.token_credential
    endpoint_suffix := a.endpoint_suffix }

/-- `AzureStorage.service`: the primary (data-operation) client; the custom
domain is applied to it only in emulated mode. -/
def AzureStorage.service (a : AzureStorage) : BlockBlobService :=
  a._blob_service (if a.is_emulated then a.custom_domain else none)
    a.connection_string

/-- `AzureStorage.custom_service`: the signing client used to generate the
URL, built with the custom domain and the custom connection string. -/
def AzureStorage.custom_service (a : AzureStorage) : BlockBlobService :=
  a._blob_service a.custom_domain a.custom_connection_string

/-- `AzureStorage._normalize_name`: `safe_join` the location with the
name; the `ValueError` of `safe_join` is re-raised as
`SuspiciousOperation`. -/
def AzureStorage._normalize_name (a : AzureStorage) (name : String) :
    Except StorageErr String :=
  match safe_join a.location name with
  | .ok p => .ok p
  | .error _ => .error .suspiciousOperation

/-- `AzureStorage._get_valid_path`: clean the name, normalize it against
the location, then run the module-level validator. -/
def AzureStorage._get_valid_path (a : AzureStorage) (name : String) :
    Except StorageErr String :=
  match a._normalize_name (clean_name name) with
  | .ok p => validatePath p
  | .error e => .error e

/-- Spooled temporary buffer: content bytes and the current position. -/
structure Buffer where
  content : List UInt8
  pos : Nat
deriving DecidableEq, Repr

/-- `AzureStorageFile`: logical name, mode string, dirty flag, optional
materialized buffer, and the `_path` computed by `_get_valid_path` in
`__init__`. -/
structure AzureStorageFile where
  name : String
  mode : String
  isDirty : Bool
  file : Option Buffer
  path : String
deriving DecidableEq, Repr

/-- Python `c in mode` for the mode-flag checks. -/
def modeHas (mode : String) (c : Char) : Bool := mode.data.contains c

/-- The read gate of `AzureStorageFile.read`: mode contains `r` or `a`. -/
def readAllowed (mode : String) : Bool := modeHas mode 'r' || modeHas mode 'a'

/-- The write gate of `AzureStorageFile.write`: mode contains `w`, `+` or
`a`. -/
def writeAllowed (mode : String) : Bool :=
  modeHas mode 'w' || modeHas mode '+' || modeHas mode 'a'

/-- `AzureStorageFile.__init__`: stores name and mode, clears the dirty
flag and the buffer, and computes `storage._get_valid_path(name)` — so a
validation or security error is raised at construction time. -/
def AzureStorageFile.init (a : AzureStorage) (name mode : String) :
    Except StorageErr AzureStorageFile :=
  match a._get_valid_path name with
  | .ok p =>
    .ok { name := name, mode := mode, isDirty := false, file := none, path := p }
  | .error e => .error e

/-- `AzureStorage._open`: constructs the handle (the source's default mode
is `rb`). -/
def AzureStorage._open (a : AzureStorage) (name mode : String) :
    Except StorageErr AzureStorageFile :=
  AzureStorageFile.init a name mode

/-- `AzureStorageFile._get_file`: on first access create the spooled
buffer; when the mode contains `r` or `a`, download the remote blob
content (`fetch`) into it; when the mode contains `r`, seek back to the
start.  Returns the buffer together with the updated handle. -/
def AzureStorageFile._get_file (f : AzureStorageFile) (fetch : List UInt8) :
    Buffer × AzureStorageFile :=
  match f.file with
  | some b => (b, f)
  | none =>
    let content := if readAllowed f.mode then fetch else []
    let pos := if modeHas f.mode 'r' then 0 else content.length
    let b : Buffer := { content := content, pos := pos }
    (b, { f with file := some b })

/-- `AzureStorageFile.read`: raises `AttributeError` unless the mode
contains `r` or `a`; otherwise delegates to `File.read`, which returns the
bytes from the current position to the end of the materialized buffer. -/
def AzureStorageFile.read (f : AzureStorageFile) (fetch : List UInt8) :
    Except StorageErr (List UInt8 × AzureStorageFile) :=
  if !(readAllowed f.mode) then .error .modeError
  else
    let (b, f1) := f._get_file fetch
    .ok (b.content.drop b.pos,
      { f1 with file := some { b with pos := b.content.length } })

/-- `AzureStorageFile.write`: raises `AttributeError` unless the mode
contains `w`, `+` or `a`; otherwise sets the dirty flag and delegates to
`File.write`, which writes into the buffer at the current position. -/
def AzureStorageFile.write (f : AzureStorageFile) (fetch data : List UInt8) :
    Except StorageErr AzureStorageFile :=
  if !(writeAllowed f.mode) then .error .modeError
  else
    let f1 := { f with isDirty := true }
    let (b, f2) := f1._get_file fetch
    let newContent :=
      b.content.take b.pos ++ data ++ b.content.drop (b.pos + data.length)
    .ok { f2 with
      file := some { content := newContent, pos := b.pos + data.length } }

/-- Result of `AzureStorageFile.close`: the post-state, the exception that
escaped (if any), and whether the facade's save operation was invoked. -/
structure CloseResult where
  state : AzureStorageFile
  err : Option AzureErr
  saveCalled : Bool
deriving DecidableEq, Repr

/-- `AzureStorageFile.close`, with the outcome the facade's `_save` would
produce passed in as `saveOutcome`: a no-op when the buffer was never
materialized; otherwise, when dirty, seek to the start and call `_save` —
on success clear the dirty flag, then close and drop the buffer; when
`_save` raises, the exception propagates before the buffer-dropping lines
run, so the buffer is kept and the dirty flag stays set.  When not dirty
the buffer is closed and dropped without saving. -/
def AzureStorageFile.close (f : AzureStorageFile)
    (saveOutcome : Except AzureErr Unit) : CloseResult :=
  match f.file with
  | none => { state := f, err := none, saveCalled := false }
  | some b =>
    if f.isDirty then
      let f1 := { f with file := some { b with pos := 0 } }
      match saveOutcome with
      | .error e => { state := f1, err := some e, saveCalled := true }
      | .ok _ =>
        { state := { f1 with isDirty := false, file := none },
          err := none, saveCalled := true }
    else { state := { f with file := none }, err := none, saveCalled := false }

/-- A storage configuration with the source's setting defaults (ssl on,
overwrite off, no expiration, no custom domain or connection strings) and
the given location prefix. -/
def mkStorage (loc : String) : AzureStorage :=
  { account_name := some ("acct")
    account_key := some ("key")
    azure_container := ("container")
    azure_ssl := true
    upload_max_conn := 2
    timeout := 20
    max_memory_size := 2 * 1024 * 1024
    expiration_secs := none
    overwrite_files := false
    location := loc
    default_content_type := ("application/octet-stream")
    is_emulated := false
    endpoint_suffix := none
    sas_token := none
    custom_domain := none
    connection_string := none
    custom_connection_string := none
    token_credential := none }

/-- A content source as `_save` sees it: the optional `content_type`
attribute of a wrapped inner file (`content.file.content_type`), the
optional `content_type` attribute of the source itself, the bytes, and
the stream position.  `none` models a missing attribute, the
`AttributeError` the probe catches. -/
structure ContentFile where
  file_content_type : Option String
  content_type : Option String
  data : List UInt8
  pos : Nat
deriving DecidableEq, Repr

/-- Module-level `_content_type`: probe `content.file.content_type` first,
then `content.content_type`, returning the first attribute that exists,
else `None`. -/
def _content_type (c : ContentFile) : Option String :=
  match c.file_content_type with
  | some t => some t
  | none => c.content_type

/-- The content-type probe order as the specification states it: the
content source's own attribute first, the wrapped inner file's attribute
second.  Stated only to be compared with `_content_type`, which the
source implements the other way around. -/
def _content_type_specOrder (c : ContentFile) : Option String :=
  match c.content_type with
  | some t => some t
  | none => c.file_content_type

/-- Python truthiness of an optional string: `None` and the empty string
are falsy. -/
def pyTruthyStr : Option String → Bool
  | some s => !(s == (""))
  | none => false

/-- Python `x or y` over optional strings. -/
def pyOrStr (x y : Option String) : Option String :=
  if pyTruthyStr x then x else y

/-- The upload `create_blob_from_stream` performs, recorded with its
content settings and transfer parameters. -/
structure UploadedBlob where
  container : String
  name : String
  data : List UInt8
  content_type : String
  content_encoding : Option String
  max_connections : Nat
  timeout : Nat
deriving DecidableEq, Repr

/-- `AzureStorage._save`; `guess` stands for `mimetypes.guess_type` (a
standard-library collaborator), giving the guessed type and encoding for
the validated path.  Computes the content type as
`_content_type(content) or guessed_type or default_content_type` under
Python truthiness, seeks the content to the start, uploads it, and
returns the cleaned (pre-normalization) name together with the upload
performed. -/
def AzureStorage._save (a : AzureStorage)
    (guess : String → Option String × Option String)
    (name : String) (content : ContentFile) :
    Except StorageErr (String × UploadedBlob) :=
  let cleaned_name := clean_name name
  match a._get_valid_path name with
  | .error e => .error e
  | .ok path =>
    let guessed := guess path
    let ct :=
      (pyOrStr (pyOrStr (_content_type content) guessed.1)
        (some a.default_content_type)).getD a.default_content_type
    .ok (cleaned_name,
      { container := a.azure_container
        name := path
        data := content.data
        content_type := ct
        content_encoding := guessed.2
        max_connections := a.upload_max_conn
        timeout := a.timeout })

/-- The container contents as the backend holds them: blob name paired
with the content length `size` reads. -/
abbrev BlobStore := List (String × Nat)

/-- `delete_blob` of the client: removes the blob, or raises
`AzureMissingResourceHttpError` when it does not exist. -/
def service_delete_blob (svc : BlobStore) (name : String) :
    Except AzureErr BlobStore :=
  if svc.any (fun b => b.1 == name) then
    .ok (svc.filter (fun b => !(b.1 == name)))
  else .error .missingResource

/-- `AzureStorage.delete`: validate the name, issue the delete, and
swallow only `AzureMissingResourceHttpError`; any other backend error
propagates.  Returns the container contents after the call. -/
def AzureStorage.delete (a : AzureStorage) (svc : BlobStore)
    (name : String) : Except StorageErr BlobStore :=
  match a._get_valid_path name with
  | .error e => .error e
  | .ok path =>
    match service_delete_blob svc path with
    | .ok svc2 => .ok svc2
    | .error .missingResource => .ok svc
    | .error e => .error (.azure e)

/-- `AzureStorage.size`: validate the name, fetch the blob properties and
return the content length; a missing blob raises
`AzureMissingResourceHttpError`, which propagates unchanged. -/
def AzureStorage.size (a : AzureStorage) (svc : BlobStore)
    (name : String) : Except StorageErr Nat :=
  match a._get_valid_path name with
  | .error e => .error e
  | .ok path =>
    match svc.find? (fun b => b.1 == path) with
    | some b => .ok b.2
    | none => .error (.azure .missingResource)

/-- Modelled from the spec: `django.utils.encoding.filepath_to_uri` is an
external collaborator; the spec notes the backend client percent-encodes
reserved characters at transport time, so URI translation is modelled as
the identity on names. -/
def filepath_to_uri (s : String) : String := s

/-- `BlobPermissions.READ`, the only permission the backend grants. -/
inductive BlobPermission
  | read
deriving DecidableEq, Repr

/-- A shared-access-signature token as
`generate_blob_shared_access_signature` issues it: issuing client,
container, blob, permission and UTC expiry; the source sets no start
time, so the token is valid from issuance. -/
structure SasToken where
  issuer : BlockBlobService
  container : String
  blob : String
  permission : BlobPermission
  expiry : Nat
deriving DecidableEq, Repr

/-- A token carrying no start time is valid at `t` from issuance until
its expiry. -/
def SasToken.validAt (tok : SasToken) (t : Nat) : Prop := t ≤ tok.expiry

/-- The URL `make_blob_url` builds: the client that built it, container,
blob (URI-translated), protocol, and the optional embedded token. -/
structure BlobUrl where
  builtBy : BlockBlobService
  container : String
  blob : String
  protocol : String
  sas : Option SasToken
deriving DecidableEq, Repr

/-- `AzureStorage._expire_at`: azure expects time in UTC; now plus the
expiry seconds. -/
def AzureStorage._expire_at (_a : AzureStorage) (now expire : Nat) : Nat :=
  now + expire

/-- `AzureStorage.url`: validate the name; default the expiry to the
configured `expiration_secs` when the argument is `None`; when the
effective expiry is truthy (set and non-zero) generate a read-only token
expiring at now plus the expiry and embed it; build the URL with the
signing client `custom_service`. -/
def AzureStorage.url (a : AzureStorage) (now : Nat) (name : String)
    (expire : Option Nat) : Except StorageErr BlobUrl :=
  match a._get_valid_path name with
  | .error e => .error e
  | .ok path =>
    let expireEff := match expire with
      | none => a.expiration_secs
      | some n => some n
    let sas : Option SasToken :=
      match expireEff with
      | some n =>
        if n ≠ 0 then
          some { issuer := a.custom_service
                 container := a.azure_container
                 blob := path
                 permission := .read
                 expiry := a._expire_at now n }
        else none
      | none => none
    .ok { builtBy := a.custom_service
          container := a.azure_container
          blob := filepath_to_uri path
          protocol := a.azure_protocol
          sas := sas }

/-- `list_blobs` of the client: every blob name in the container starting
with the given prefix string, in listing order. -/
def service_list_blobs (blobs : List String) (pre : String) : List String :=
  blobs.filter (fun b => pre.data.isPrefixOf b.data)

/-- `AzureStorage.list_all`: a nonempty path is validated (the location is
applied) and given a trailing slash when missing; the empty path lists
with an empty prefix.  Returns all blob names under the prefix. -/
def AzureStorage.list_all (a : AzureStorage) (blobs : List String)
    (path : String) : Except StorageErr (List String) :=
  match (if path == ("") then .ok path else a._get_valid_path path :
      Except StorageErr String) with
  | .error e => .error e
  | .ok p =>
    let p2 :=
      if !(p == ("")) && !(p.data.getLast? == some '/') then p ++ ("/")
      else p
    .ok (service_list_blobs blobs p2)

/-- One classification step of `listdir`: strip the first `len(path)`
characters from the blob name; a remainder still containing a slash
contributes its first segment to the directory set, otherwise it is an
immediate file. -/
def listdirStep (path : String) (acc : List String × List String)
    (name : String) : List String × List String :=
  let n := String.mk (name.data.drop path.data.length)
  if n.data.contains '/' then
    let d := String.mk (n.data.takeWhile (fun c => !(c == '/')))
    (if acc.1.contains d then acc.1 else acc.1 ++ [d], acc.2)
  else (acc.1, acc.2 ++ [n])

/-- `AzureStorage.listdir`: classify every name from `list_all` with
`listdirStep`.  The directory set is modelled as a first-occurrence list;
the source returns it in unspecified order. -/
def AzureStorage.listdir (a : AzureStorage) (blobs : List String)
    (path : String) : Except StorageErr (List String × List String) :=
  match a.list_all blobs path with
  | .error e => .error e
  | .ok names => .ok (names.foldl (listdirStep path) ([], []))

/-- The token `url` issues for the validated path `path` with expiry
instant `e`: read-only and issued by the signing client. -/
def expectedReadToken (a : AzureStorage) (path : String) (e : Nat) :
    SasToken :=
  { issuer := a.custom_service, container := a.azure_container,
    blob := path, permission := .read, expiry := e }

/-- A dirty handle holding a one-byte buffer, for concrete
instantiations. -/
def dirtyHandle : AzureStorageFile :=
  { name := ("x"), mode := ("wb"), isDirty := true,
    file := some { content := [37], pos := 1 }, path := ("x") }

/-- A content source whose wrapped inner file and own content-type
attribute disagree, for concrete instantiations. -/
def wrappedContent : ContentFile :=
  { file_content_type := some ("image/bar"),
    content_type := some ("text/foo"), data := [], pos := 0 }

/-- A content source with no content-type attributes at all, for concrete
instantiations. -/
def bareContent : ContentFile :=
  { file_content_type := none, content_type := none, data := [], pos := 0 }

/-- A freshly opened read-mode handle on the valid path `x`, for concrete
instantiations. -/
def rbHandle : AzureStorageFile :=
  { name := ("x"), mode := ("rb"), isDirty := false, file := none,
    path := ("x") }

/-- A freshly opened write-mode handle on the valid path `x`, for concrete
instantiations. -/
def wbHandle : AzureStorageFile :=
  { name := ("x"), mode := ("wb"), isDirty := false, file := none,
    path := ("x") }

example : clean_name ("a//b/./c/../d") = ("a/b/d") := by decide
example : safe_join ("") ("../../etc/passwd") = .error () := by decide
example : safe_join ("media") ("x") = .ok ("media/x") := by decide
example : safe_join ("media") ("../x") = .error () := by decide
example : _get_valid_path ("./a/b.txt/") = .ok ("a/b.txt") := by decide
example : _get_valid_path ("...") = .error .nameEmpty := by decide

example : (mkStorage ("foo"))._get_valid_path ("x") = .ok ("foo/x") := by decide
example : (mkStorage ("foo"))._get_valid_path ("foo/x") = .ok ("foo/foo/x") := by decide
example : (mkStorage (""))._get_valid_path ("x") = .ok ("x") := by decide
example : (mkStorage ("media"))._get_valid_path ("../../etc/passwd") =
    .error .suspiciousOperation := by decide
example : (mkStorage ("")).listdir [("a/b.txt"), ("a/c/d.txt"), ("e.txt")] ("") =
    .ok ([("a")], [("e.txt")]) := by decide
example : (mkStorage ("")).listdir [("a/b.txt"), ("a/c/d.txt"), ("e.txt")] ("a") =
    .ok ([("")], []) := by decide
example : _get_valid_path (String.mk (List.replicate 1024 'a')) =
    .ok (String.mk (List.replicate 1024 'a')) := by decide
example : _get_valid_path (String.mk (List.replicate 1025 'a')) =
    .error .nameTooLong := by decide
example : _get_valid_path (String.mk ((List.replicate 256 ['a', '/']).flatten ++ ['a'])) =
    .ok (String.mk ((List.replicate 256 ['a', '/']).flatten ++ ['a'])) := by decide
example : _get_valid_path (String.mk ((List.replicate 257 ['a', '/']).flatten ++ ['a'])) =
    .error .tooManySegments := by decide

/-- C1: for every input name whose resolution against the configured root
prefix escapes the root — `safe_join` on the cleaned name fails — the
end-to-end normalization raises `SuspiciousOperation`: it never returns a
value and never surfaces the escape as one of the plain `ValueError`
variants, which are the other constructors of `StorageErr`. -/
theorem normalize_root_escape_raises_suspicious
    (a : AzureStorage) (name : String)
    (h : safe_join a.location (clean_name name) = .error ()) :
    a._get_valid_path name = .error .suspiciousOperation := by
  unfold AzureStorage._get_valid_path AzureStorage._normalize_name
  rw [h]

/-- Witness for C1: `../../etc/passwd` escapes the root prefix `media`
and normalization rejects it with the security error. -/
theorem normalize_root_escape_raises_suspicious_witness :
    (mkStorage ("media"))._get_valid_path ("../../etc/passwd") =
      .error .suspiciousOperation :=
  normalize_root_escape_raises_suspicious (mkStorage ("media"))
    ("../../etc/passwd") (by decide)

/-- C3: with the non-empty root prefix `foo`, end-to-end normalization is
not idempotent: `x` normalizes to `foo/x`, but normalizing `foo/x` again
yields `foo/foo/x` — the location prefix is prepended a second time,
contradicting the idempotence the source comment (`# Must be idempotent`)
demands. -/
theorem get_valid_path_not_idempotent_nonempty_location :
    (mkStorage ("foo"))._get_valid_path ("x") = .ok ("foo/x") ∧
    (mkStorage ("foo"))._get_valid_path ("foo/x") = .ok ("foo/foo/x") ∧
    ("foo/foo/x") ≠ ("foo/x") := by decide

/-- C6: the source evaluated on the claim's instance: `listdir` of the
empty path produces directory `a` and file `e.txt` as claimed, but
`listdir` of `a` produces one empty-named directory and no files instead
of the claimed directory `c` and file `b.txt` — `list_all` filters by the
normalized prefix `a/` while `listdir` strips only the single character
of the raw argument, so every remainder begins with a slash. -/
theorem listdir_prefix_strip_mismatch :
    (mkStorage ("")).listdir [("a/b.txt"), ("a/c/d.txt"), ("e.txt")] ("") =
      .ok ([("a")], [("e.txt")]) ∧
    (mkStorage ("")).listdir [("a/b.txt"), ("a/c/d.txt"), ("e.txt")] ("a") =
      .ok ([("")], []) ∧
    ([("")], ([] : List String)) ≠ ([("c")], [("b.txt")]) := by decide

/-- C7: validator boundaries: a 1024-character name is accepted unchanged
while 1025 characters raise the too-long error; a name with exactly 256
slash separators is accepted while 257 raise the too-many-segments error;
a name whose characters are entirely stripped is rejected as empty. -/
theorem validator_boundaries :
    _get_valid_path (String.mk (List.replicate 1024 'a')) =
      .ok (String.mk (List.replicate 1024 'a')) ∧
    (String.mk (List.replicate 1024 'a')).data.length = 1024 ∧
    _get_valid_path (String.mk (List.replicate 1025 'a')) =
      .error .nameTooLong ∧
    _get_valid_path
        (String.mk ((List.replicate 256 ['a', '/']).flatten ++ ['a'])) =
      .ok (String.mk ((List.replicate 256 ['a', '/']).flatten ++ ['a'])) ∧
    ((List.replicate 256 ['a', '/']).flatten ++ ['a']).count ('/') = 256 ∧
    _get_valid_path
        (String.mk ((List.replicate 257 ['a', '/']).flatten ++ ['a'])) =
      .error .tooManySegments ∧
    _get_valid_path ("//..//") = .error .nameEmpty := by decide

/-- C9: a handle whose mode lacks the write, plus and append flags raises
the mode error on every write; one whose mode lacks the read and append
flags raises the mode error on every read; and read succeeds exactly when
the mode contains the read or append flag. -/
theorem file_mode_enforcement (f : AzureStorageFile)
    (fetch data : List UInt8) :
    (writeAllowed f.mode = false → f.write fetch data = .error .modeError) ∧
    (readAllowed f.mode = false → f.read fetch = .error .modeError) ∧
    ((∃ r, f.read fetch = .ok r) ↔ readAllowed f.mode = true) := by
  refine ⟨?_, ?_, ?_, ?_⟩
  · intro hw
    unfold AzureStorageFile.write
    rw [hw]
    rfl
  · intro hr
    unfold AzureStorageFile.read
    rw [hr]
    rfl
  · rintro ⟨r, hr⟩
    by_contra hnot
    rw [Bool.not_eq_true] at hnot
    unfold AzureStorageFile.read at hr
    rw [hnot] at hr
    cases hr
  · intro hr
    unfold AzureStorageFile.read
    rw [hr]
    exact ⟨_, rfl⟩

/-- Witness for C9: a read-only handle rejects write, a write-only handle
rejects read, and a read-mode read succeeds. -/
theorem file_mode_enforcement_witness :
    rbHandle.write [] [37] = .error .modeError ∧
    wbHandle.read [] = .error .modeError ∧
    ∃ r, rbHandle.read [] = .ok r := by
  refine ⟨?_, ?_, ?_⟩
  · exact (file_mode_enforcement rbHandle [] [37]).1 (by decide)
  · exact (file_mode_enforcement wbHandle [] []).2.1 (by decide)
  · exact (file_mode_enforcement rbHandle [] []).2.2.mpr (by decide)

/-- C10 counterexample: `_open` on the root-escaping name `../secret`
raises the security error at construction time instead of returning a
handle, so construction does not defer validation. -/
theorem open_defers_validation_cex :
    (mkStorage ("media"))._open ("../secret") ("rb") =
      .error .suspiciousOperation := by decide

/-- C10 (amended): `_open` validates and normalizes the name eagerly at
construction: it returns a handle — with the validated path stored, no
buffer materialized and a clear dirty flag — exactly when
`_get_valid_path` succeeds on the name, and otherwise the constructor
raises that same validation or security error. -/
theorem open_validates_at_construction (a : AzureStorage)
    (name mode : String) :
    (∀ p, a._get_valid_path name = .ok p → a._open name mode =
      .ok { name := name, mode := mode, isDirty := false, file := none,
            path := p }) ∧
    (∀ e, a._get_valid_path name = .error e →
      a._open name mode = .error e) := by
  constructor
  · intro p hp
    unfold AzureStorage._open AzureStorageFile.init
    rw [hp]
  · intro e he
    unfold AzureStorage._open AzureStorageFile.init
    rw [he]

/-- C2 counterexample: on a dirty handle whose flush raises, `close`
exits with the error and the buffer still attached — the buffer is not
released on the failure path, contrary to the claim that it is released
in every case including a raising flush. -/
theorem close_failure_keeps_buffer_cex :
    (dirtyHandle.close (.error .transport)).state.file =
      some { content := [37], pos := 0 } ∧
    (dirtyHandle.close (.error .transport)).err = some .transport ∧
    (some { content := [37], pos := 0 } : Option Buffer) ≠ none := by decide

/-- C2 (amended): `close` is a no-op when the buffer was never
materialized; when a buffer exists, the facade's save operation is
invoked exactly when the handle is dirty; on a successful flush the dirty
flag is cleared and the buffer released, and a clean handle releases the
buffer without saving — but when the flush raises, the exception
propagates with the buffer still attached and the dirty flag still
set. -/
theorem close_flush_semantics (f : AzureStorageFile)
    (saveOutcome : Except AzureErr Unit) :
    (f.file = none →
      f.close saveOutcome =
        { state := f, err := none, saveCalled := false }) ∧
    (∀ b, f.file = some b →
      ((f.close saveOutcome).saveCalled = f.isDirty ∧
       (f.isDirty = false → f.close saveOutcome =
          { state := { f with file := none }, err := none,
            saveCalled := false }) ∧
       (f.isDirty = true → saveOutcome = .ok () → f.close saveOutcome =
          { state := { f with isDirty := false, file := none },
            err := none, saveCalled := true }) ∧
       (∀ e, f.isDirty = true → saveOutcome = .error e →
          f.close saveOutcome =
            { state := { f with file := some { b with pos := 0 } },
              err := some e, saveCalled := true }))) := by
  constructor
  · intro h
    unfold AzureStorageFile.close
    rw [h]
  · intro b hb
    refine ⟨?_, ?_, ?_, ?_⟩
    · unfold AzureStorageFile.close
      rw [hb]
      cases h : f.isDirty
      · simp
      · cases saveOutcome <;> simp
    · intro hd
      unfold AzureStorageFile.close
      rw [hb, hd]
      rfl
    · intro hd hs
      unfold AzureStorageFile.close
      rw [hb, hd, hs]
      rfl
    · intro e hd hs
      unfold AzureStorageFile.close
      rw [hb, hd, hs]
      rfl

/-- Witness for C2: on a dirty buffered handle a successful flush clears
the dirty flag and releases the buffer, a failing flush keeps the buffer,
and an unmaterialized handle closes as a no-op. -/
theorem close_flush_semantics_witness :
    dirtyHandle.close (.ok ()) =
      { state := { dirtyHandle with isDirty := false, file := none },
        err := none, saveCalled := true } ∧
    dirtyHandle.close (.error .transport) =
      { state := { dirtyHandle with
          file := some { content := [37], pos := 0 } },
        err := some .transport, saveCalled := true } ∧
    wbHandle.close (.ok ()) =
      { state := wbHandle, err := none, saveCalled := false } := by
  refine ⟨?_, ?_, ?_⟩
  · exact ((close_flush_semantics dirtyHandle (.ok ())).2
      { content := [37], pos := 1 } rfl).2.2.1 rfl rfl
  · exact ((close_flush_semantics dirtyHandle (.error .transport)).2
      { content := [37], pos := 1 } rfl).2.2.2 .transport rfl rfl
  · exact (close_flush_semantics wbHandle (.ok ())).1 rfl

/-- C4 counterexample: on a content source whose own `content_type` is
`text/foo` and whose wrapped inner file carries `image/bar`, the probe
returns the inner file's value and `_save` uploads with `image/bar`,
while the claimed priority — the source's own attribute first — would
pick `text/foo`. -/
theorem content_type_probe_order_cex :
    _content_type wrappedContent = some ("image/bar") ∧
    _content_type_specOrder wrappedContent = some ("text/foo") ∧
    ((mkStorage (""))._save (fun _ => (none, none)) ("x")
      wrappedContent).map (fun r => r.2.content_type) =
      .ok ("image/bar") ∧
    ("image/bar") ≠ ("text/foo") := by decide

/-- C4 (amended): the content type saved is the first Python-truthy value
of, in order: (1) the content-type attribute of the wrapped inner file,
(2) when the inner attribute is absent, the content-type attribute of the
content source itself, (3) the guess from the file extension, (4) the
configured default — an empty-string value falls through to the later
stages. -/
theorem save_content_type_priority (a : AzureStorage)
    (guess : String → Option String × Option String)
    (name : String) (content : ContentFile) (path : String)
    (h : a._get_valid_path name = .ok path) :
    ∃ blob, a._save guess name content = .ok (clean_name name, blob) ∧
      (∀ t, content.file_content_type = some t →
        _content_type content = some t) ∧
      (content.file_content_type = none →
        _content_type content = content.content_type) ∧
      (∀ t, _content_type content = some t → t ≠ ("") →
        blob.content_type = t) ∧
      (pyTruthyStr (_content_type content) = false →
        ∀ g, (guess path).1 = some g → g ≠ ("") →
          blob.content_type = g) ∧
      (pyTruthyStr (_content_type content) = false →
        pyTruthyStr (guess path).1 = false →
        blob.content_type = a.default_content_type) := by
  unfold AzureStorage._save
  rw [h]
  refine ⟨_, rfl, ?_, ?_, ?_, ?_, ?_⟩
  · intro t ht
    unfold _content_type
    rw [ht]
  · intro hn
    unfold _content_type
    rw [hn]
  · intro t ht hne
    show (pyOrStr (pyOrStr (_content_type content) (guess path).1)
      (some a.default_content_type)).getD a.default_content_type = t
    rw [ht]
    simp [pyOrStr, pyTruthyStr, hne]
  · intro hf g hg hgne
    have hinner : pyOrStr (_content_type content) (guess path).1 =
        (guess path).1 := by
      unfold pyOrStr
      rw [hf]
      rfl
    show (pyOrStr (pyOrStr (_content_type content) (guess path).1)
      (some a.default_content_type)).getD a.default_content_type = g
    rw [hinner, hg]
    simp [pyOrStr, pyTruthyStr, hgne]
  · intro hf hg
    have hinner : pyOrStr (_content_type content) (guess path).1 =
        (guess path).1 := by
      unfold pyOrStr
      rw [hf]
      rfl
    show (pyOrStr (pyOrStr (_content_type content) (guess path).1)
      (some a.default_content_type)).getD a.default_content_type =
      a.default_content_type
    rw [hinner]
    unfold pyOrStr
    rw [hg]
    rfl

/-- Witness for C4: with no content-type attributes on the source the
guessed type is used, and `_save` returns the cleaned name. -/
theorem save_content_type_priority_witness :
    ∃ blob, (mkStorage (""))._save (fun _ => (some ("text/plain"), none))
      ("x.txt") bareContent = .ok (clean_name ("x.txt"), blob) ∧
      blob.content_type = ("text/plain") := by
  obtain ⟨blob, h1, -, -, -, h4, -⟩ :=
    save_content_type_priority (mkStorage (""))
      (fun _ => (some ("text/plain"), none)) ("x.txt") bareContent
      ("x.txt") (by decide)
  exact ⟨blob, h1, h4 (by decide) ("text/plain") rfl (by decide)⟩

/-- C5: the backend's not-found is swallowed only by delete: deleting a
name that validates to a blob absent from the container returns without
error and leaves the container unchanged, a second delete gives the same
no-error outcome, and `size` on the same name propagates the
missing-resource error unchanged. -/
theorem delete_idempotent_size_propagates (a : AzureStorage)
    (svc : BlobStore) (name path : String)
    (hv : a._get_valid_path name = .ok path)
    (habs : ∀ x ∈ svc, x.1 ≠ path) :
    a.delete svc name = .ok svc ∧
    (∀ svc2, a.delete svc name = .ok svc2 →
      a.delete svc2 name = .ok svc2) ∧
    a.size svc name = .error (.azure .missingResource) := by
  have hany : svc.any (fun b => b.1 == path) = false := by
    rw [List.any_eq_false]
    intro x hx
    simpa using habs x hx
  have hfind : svc.find? (fun b => b.1 == path) = none := by
    rw [List.find?_eq_none]
    intro x hx
    simpa using habs x hx
  have hdel : a.delete svc name = .ok svc := by
    unfold AzureStorage.delete
    rw [hv]
    dsimp only
    unfold service_delete_blob
    rw [hany]
    rfl
  refine ⟨hdel, ?_, ?_⟩
  · intro svc2 h2
    rw [hdel] at h2
    injection h2 with h3
    subst h3
    exact hdel
  · unfold AzureStorage.size
    rw [hv]
    dsimp only
    rw [hfind]

/-- Witness for C5: deleting the absent `gone.txt` leaves the container
unchanged without error while `size` raises the missing-resource
error. -/
theorem delete_idempotent_size_propagates_witness :
    (mkStorage ("")).delete [(("other.txt"), 5)] ("gone.txt") =
      .ok [(("other.txt"), 5)] ∧
    (mkStorage ("")).size [(("other.txt"), 5)] ("gone.txt") =
      .error (.azure .missingResource) := by
  obtain ⟨h1, -, h3⟩ :=
    delete_idempotent_size_propagates (mkStorage ("")) [(("other.txt"), 5)]
      ("gone.txt") ("gone.txt") (by decide) (by decide)
  exact ⟨h1, h3⟩

/-- C8: when the effective expiry — the explicit argument, else the
configured default — is set and non-zero, `url` embeds a read-only token
issued by the signing client whose expiry is call time plus the expiry
and which, carrying no start time, is valid from call time through the
expiry instant; when the effective expiry is zero or unset the URL
carries no token; in every case the URL is built by the signing client
`custom_service`, which carries the custom domain while the primary
client (outside emulated mode) does not. -/
theorem url_signing_expiry (a : AzureStorage) (now : Nat)
    (name path : String) (expire : Option Nat)
    (h : a._get_valid_path name = .ok path) :
    ∃ u, a.url now name expire = .ok u ∧
      u.builtBy = a.custom_service ∧
      (∀ n, (expire = some n ∨
          (expire = none ∧ a.expiration_secs = some n)) → n ≠ 0 →
        u.sas = some (expectedReadToken a path (now + n)) ∧
        ∀ t, now ≤ t → t ≤ now + n →
          SasToken.validAt (expectedReadToken a path (now + n)) t) ∧
      ((expire = some 0 ∨ (expire = none ∧
          (a.expiration_secs = none ∨ a.expiration_secs = some 0))) →
        u.sas = none) ∧
      (a.is_emulated = false → a.service.custom_domain = none ∧
        a.custom_service.custom_domain = a.custom_domain) := by
  unfold AzureStorage.url
  rw [h]
  refine ⟨_, rfl, rfl, ?_, ?_, ?_⟩
  · rintro n (rfl | ⟨rfl, hs⟩) hnz
    · refine ⟨?_, fun t h1 h2 => h2⟩
      show (if n ≠ 0 then some (expectedReadToken a path
        (a._expire_at now n)) else none) = _
      rw [if_pos hnz]
      rfl
    · refine ⟨?_, fun t h1 h2 => h2⟩
      show (match a.expiration_secs with
        | some n => if n ≠ 0 then some (expectedReadToken a path
            (a._expire_at now n)) else none
        | none => none) = _
      rw [hs]
      show (if n ≠ 0 then some (expectedReadToken a path
        (a._expire_at now n)) else none) = _
      rw [if_pos hnz]
      rfl
  · rintro (rfl | ⟨rfl, (hs | hs)⟩)
    · simp
    · show (match a.expiration_secs with
        | some n => if n ≠ 0 then some (expectedReadToken a path
            (a._expire_at now n)) else none
        | none => none) = none
      rw [hs]
    · show (match a.expiration_secs with
        | some n => if n ≠ 0 then some (expectedReadToken a path
            (a._expire_at now n)) else none
        | none => none) = none
      rw [hs]
      simp
  · intro he
    unfold AzureStorage.service AzureStorage.custom_service
      AzureStorage._blob_service
    rw [he]
    exact ⟨rfl, rfl⟩

/-- Witness for C8: with root `media` and an explicit sixty-second
expiry, the URL of `x` carries a read token expiring sixty seconds after
call time, issued and built by the signing client. -/
theorem url_signing_expiry_witness :
    ∃ u, (mkStorage ("media")).url 1000 ("x") (some 60) = .ok u ∧
      u.builtBy = (mkStorage ("media")).custom_service ∧
      u.sas = some (expectedReadToken (mkStorage ("media"))
        ("media/x") 1060) := by
  obtain ⟨u, h1, h2, h3, -, -⟩ :=
    url_signing_expiry (mkStorage ("media")) 1000 ("x") ("media/x")
      (some 60) (by decide)
  exact ⟨u, h1, h2, (h3 60 (Or.inl rfl) (by decide)).1⟩
theorem open_validates_at_construction_witness :
    (mkStorage ("media"))._open ("x.txt") ("rb") =
      .ok { name := ("x.txt"), mode := ("rb"), isDirty := false,
            file := none, path := ("media/x.txt") } ∧
    (mkStorage ("media"))._open ("../x") ("rb") =
      .error .suspiciousOperation := by
  constructor
  · exact (open_validates_at_construction (mkStorage ("media")) ("x.txt")
      ("rb")).1 ("media/x.txt") (by decide)
  · exact (open_validates_at_construction (mkStorage ("media")) ("../x")
      ("rb")).2 .suspiciousOperation (by decide)
